import Mathlib

/-!
Verification development for the StrokeVision Identity & Access Security Core.

Shallow embedding of:
- `app/models/user.py` (lockout fields and helpers on `User`),
- `app/views/auth.py` (`login` route, the lockout/credential decision flow),
- `app/security/auth_shield.py` (`AuthShield.require_role`, `validate_session`),
- `app/security/AES_Encryptor.py` (`AESCipher.encrypt` / `decrypt`),
- `app/models/patient.py` (encrypted field codecs),
- `app/utils/id_generator.py` (`IDGenerator`).

Timestamps are modelled as natural numbers (seconds); `datetime.utcnow()`
becomes an explicit `now` parameter. Python strings are modelled as `String`
(or `List Char` for the identifier generator, where character-level slicing
matters).
-/

namespace StrokeVision

/-! ## Account state (`app/models/user.py`)

The four lockout-related columns of the `users` table. The remaining columns
(name, email, password hash, role, created_at) do not participate in the
lockout state machine; the password check is modelled as a boolean input to
the login flow. -/

structure UserState where
  failed_login_attempts : Nat
  last_failed_login : Option Nat
  is_locked : Bool
  locked_at : Option Nat
  deriving DecidableEq, Repr

/-- Column defaults: `failed_login_attempts` defaults to 0, `last_failed_login`
to NULL, `is_locked` to False, `locked_at` to NULL. -/
def defaultUserState : UserState :=
  { failed_login_attempts := 0
    last_failed_login := none
    is_locked := false
    locked_at := none }

namespace UserState

/-- `User.increment_failed_attempts`: counter += 1, `last_failed_login = utcnow()`. -/
def increment_failed_attempts (now : Nat) (u : UserState) : UserState :=
  { u with
    failed_login_attempts := u.failed_login_attempts + 1
    last_failed_login := some now }

/-- `User.reset_failed_attempts`: counter = 0, `last_failed_login = None`
(field updates only; the commit is modelled separately for the
persistence-failure analysis). -/
def reset_failed_attempts (u : UserState) : UserState :=
  { u with
    failed_login_attempts := 0
    last_failed_login := none }

/-- `User.lock`: `is_locked = True`, `locked_at = utcnow()`. -/
def lock (now : Nat) (u : UserState) : UserState :=
  { u with
    is_locked := true
    locked_at := some now }

/-- `User.unlock`: `is_locked = False`, `locked_at = None`, then
`reset_failed_attempts(commit=False)`. -/
def unlock (u : UserState) : UserState :=
  reset_failed_attempts { u with is_locked := false, locked_at := none }

/-- `User.locked_for_seconds`: 0 unless locked with a lock timestamp,
otherwise seconds elapsed since `locked_at` (an `int` in Python, which can
be negative under clock skew, hence `Int`). -/
def locked_for_seconds (now : Nat) (u : UserState) : Int :=
  match u.is_locked, u.locked_at with
  | true, some t => (now : Int) - t
  | _, _ => 0

end UserState

/-! ## The login flow (`app/views/auth.py`, `login`)

After the form validates and the user row is fetched, the route
1. rejects (or auto-unlocks) a locked account,
2. on a correct password resets the counter and logs the user in,
3. otherwise increments the counter and locks once it reaches the threshold.

`passwordCorrect` stands for `user.check_password(form.password.data)`;
`LoginResult.passwordChecked` records whether that comparison was reached. -/

inductive LoginOutcome where
  /-- "Account locked. Contact an admin to unlock." -/
  | lockedReject
  /-- successful login (`login_user` called) -/
  | success
  /-- "Account locked due to failed attempts." -/
  | lockedNow
  /-- "Invalid email or password." -/
  | invalidCreds
  deriving DecidableEq, Repr

structure LoginResult where
  user : UserState
  outcome : LoginOutcome
  passwordChecked : Bool
  deriving DecidableEq, Repr

/-- Steps 2 and 3 of the `login` route: credential check, then on failure the
counter increment and threshold lock. -/
def evalCredentials (maxAttempts now : Nat) (passwordCorrect : Bool)
    (u : UserState) : LoginResult :=
  if passwordCorrect then
    { user := u.reset_failed_attempts, outcome := .success, passwordChecked := true }
  else
    let u' := u.increment_failed_attempts now
    if u'.failed_login_attempts ≥ maxAttempts then
      { user := u'.lock now, outcome := .lockedNow, passwordChecked := true }
    else
      { user := u', outcome := .invalidCreds, passwordChecked := true }

/-- The `login` route's decision flow for an existing user:
`maxAttempts = ACCOUNT_LOCKOUT_ATTEMPTS` (default 5),
`lockPeriod = ACCOUNT_LOCKOUT_PERIOD_SECONDS` (default 900). -/
def login (maxAttempts lockPeriod now : Nat) (passwordCorrect : Bool)
    (u : UserState) : LoginResult :=
  if u.is_locked then
    if u.locked_for_seconds now ≥ (lockPeriod : Int) then
      evalCredentials maxAttempts now passwordCorrect u.unlock
    else
      { user := u, outcome := .lockedReject, passwordChecked := false }
  else
    evalCredentials maxAttempts now passwordCorrect u

/-- Iterated failed login attempts (wrong password each time). -/
def iterFail (maxAttempts lockPeriod now : Nat) : Nat → UserState → UserState
  | 0, u => u
  | n + 1, u => iterFail maxAttempts lockPeriod now n
      (login maxAttempts lockPeriod now false u).user

/-! ### Persistence-aware counter reset (for the success path)

`User.reset_failed_attempts(commit=True)` runs `db.session.add(self);
db.session.commit()` with no `try`/`except` and no retry; a commit failure
propagates. `commitOk` stands for whether `db.session.commit()` succeeds. -/

inductive PersistError where
  | commitFailed
  deriving DecidableEq, Repr

/-- `User.reset_failed_attempts` with its commit: on commit failure the
exception propagates to the caller. -/
def reset_failed_attempts_commit (commitOk : Bool) (u : UserState) :
    Except PersistError UserState :=
  let u' := u.reset_failed_attempts
  if commitOk then .ok u' else .error .commitFailed

/-- The `login` route's success branch with persistence made explicit:
`user.reset_failed_attempts()` (which commits) and then `login_user`.
No exception handler surrounds the call in `auth.py`. -/
def loginSuccessPath (commitOk : Bool) (u : UserState) :
    Except PersistError LoginResult :=
  match reset_failed_attempts_commit commitOk u with
  | .error e => .error e
  | .ok u' => .ok { user := u', outcome := .success, passwordChecked := true }

/-! ### Account operations and the lock invariant (claimed in the spec's
data model: §3 Account) -/

/-- The Account operations the security core performs: creation with
column defaults, `lock`, `unlock`, `increment_failed_attempts`,
`reset_failed_attempts`. -/
inductive AccountOp where
  | create
  | lockOp (now : Nat)
  | unlockOp
  | incrementOp (now : Nat)
  | resetOp
  deriving DecidableEq, Repr

def AccountOp.apply : AccountOp → UserState → UserState
  | .create, _ => defaultUserState
  | .lockOp now, u => u.lock now
  | .unlockOp, u => u.unlock
  | .incrementOp now, u => u.increment_failed_attempts now
  | .resetOp, u => u.reset_failed_attempts

/-- The claimed invariant: lock flag true iff lock timestamp non-null. -/
def lockInv (u : UserState) : Prop := u.is_locked = true ↔ u.locked_at ≠ none

instance (u : UserState) : Decidable (lockInv u) := by
  unfold lockInv
  infer_instance

/-! ## Access Guard (`app/security/auth_shield.py` and `app/__init__.py`)

`check_session_security` is registered as `before_request` and runs
`AuthShield.validate_session()` on every request; a route decorated with
`AuthShield.require_role(roles)` then checks authentication and role before
running the view body. `Principal` models `current_user` as the guard sees
it: whether a session is present (`authenticated`), the user's `role`
column and `is_locked` column. -/

structure Principal where
  authenticated : Bool
  role : String
  is_locked : Bool
  deriving DecidableEq, Repr

inductive AccessDecision where
  /-- `validate_session`: locked mid-session, session terminated, 403. -/
  | denyLocked
  /-- `require_role`: `abort(401)` when unauthenticated. -/
  | denyUnauthenticated
  /-- `require_role`: `abort(403)` / "Insufficient privileges". -/
  | denyForbidden
  deriving DecidableEq, Repr

/-- Outcome of a guarded request: either a denial issued before the view
body runs, or the body's result. -/
inductive GuardResult (α : Type) where
  | denied (d : AccessDecision)
  | ok (a : α)
  deriving DecidableEq, Repr

/-- `AuthShield.validate_session`: if an authenticated principal's account is
locked, terminate the session and deny; otherwise return control
(`None` from the `before_request` hook). -/
def validate_session (p : Principal) : Option AccessDecision :=
  if p.authenticated && p.is_locked then some .denyLocked else none

/-- `AuthShield.require_role(roles)` applied to a view body `f`:
401 when unauthenticated, 403 when the role is not in `roles`,
otherwise run the body. -/
def require_role {α : Type} (roles : List String) (p : Principal)
    (f : Unit → α) : GuardResult α :=
  if !p.authenticated then .denied .denyUnauthenticated
  else if p.role ∉ roles then .denied .denyForbidden
  else .ok (f ())

/-- A full request to a role-protected view: the `before_request` session
check runs first; only when it passes does the decorated view run. -/
def guardedRequest {α : Type} (roles : List String) (p : Principal)
    (f : Unit → α) : GuardResult α :=
  match validate_session p with
  | some d => .denied d
  | none => require_role roles p f

/-! ## Crypto Codec (`app/security/AES_Encryptor.py`, `app/models/patient.py`)

Python strings are modelled as `List Char`. A Python scalar (the values the
codec and the encrypted fields handle) is an int, a float or a string;
Python floats are modelled by their exact rational value (all float values
occurring here — ages, BMIs — are exact decimals).

The Fernet primitive (`cryptography.fernet.Fernet`) is external library
code, modelled symbolically: a token is the plaintext prefixed with the
Fernet version marker, and authenticated decryption succeeds exactly on
such tokens, returning the plaintext. This captures the two properties the
repository relies on: decrypting a produced token returns the original
plaintext, and legacy plain values (digit strings, numbers) are not valid
tokens, so their decryption fails. -/

abbrev PyStr := List Char

inductive PyVal where
  | int (n : Int)
  | float (q : Rat)
  | str (s : PyStr)
  deriving DecidableEq, Repr

/-- Left-pad a string with `'0'` to width `w` (Python `str.zfill` on an
unsigned digit string). -/
def zfill (w : Nat) (s : PyStr) : PyStr :=
  List.replicate (w - s.length) '0' ++ s

/-- Decimal representation of a natural number, most significant digit
first (Python `str` on a non-negative int). The first argument is
recursion fuel; `natStr` supplies enough. -/
def natStrAux : Nat → Nat → PyStr
  | 0, _ => []
  | fuel + 1, n =>
    if n < 10 then [Nat.digitChar n]
    else natStrAux fuel (n / 10) ++ [Nat.digitChar (n % 10)]

def natStr (n : Nat) : PyStr := natStrAux (n + 1) n

/-- Python `str` of an int (optional minus sign, then decimal digits). -/
def intStr (n : Int) : PyStr :=
  if n < 0 then '-' :: natStr n.natAbs else natStr n.natAbs

/-- Python `repr`/`str` of a float whose value is an exact decimal:
sign, integer part, `'.'`, fractional digits (at least one, as Python
prints `38.0` for a whole float). Values that are not finite decimals
do not arise from the repository's data. -/
def pyFloatStr (q : Rat) : PyStr :=
  let sign : PyStr := if q.num < 0 then ['-'] else []
  let n := q.num.natAbs
  match (List.range 40).find? (fun k => (n * 10 ^ k) % q.den == 0) with
  | some k0 =>
    let k := max k0 1
    let scaled := n * 10 ^ k / q.den
    sign ++ natStr (scaled / 10 ^ k) ++ '.' :: zfill k (natStr (scaled % 10 ^ k))
  | none => sign ++ natStr n ++ '/' :: natStr q.den

/-- Python `str()` applied to a scalar. -/
def pyStr : PyVal → PyStr
  | .int n => intStr n
  | .float q => pyFloatStr q
  | .str s => s

/-- Python `==` between scalars: numbers compare by value across
`int`/`float`; a string equals only an identical string. -/
def pyEq : PyVal → PyVal → Bool
  | .int n, .int m => n == m
  | .int n, .float q => (n : Rat) == q
  | .float q, .int n => q == (n : Rat)
  | .float q, .float r => q == r
  | .str s, .str t => s == t
  | .str _, .int _ | .str _, .float _ | .int _, .str _ | .float _, .str _ => false

/-- The Fernet token version marker (every token begins with it). -/
def fernetTag : PyStr := ['g', 'A', 'A', 'A', 'A', 'B']

/-- Symbolic Fernet encryption: tag followed by the plaintext. -/
def fernetEncrypt (s : PyStr) : PyStr := fernetTag ++ s

/-- Symbolic authenticated decryption: succeeds exactly on produced
tokens, returning the plaintext; anything else fails (raises
`InvalidToken` in the library). -/
def fernetDecrypt (c : PyStr) : Option PyStr :=
  if c.take 6 = fernetTag then some (c.drop 6) else none

namespace AESCipher

/-- `AESCipher.encrypt`: `None → None`; a non-string is converted with
`str()`; the result is the Fernet token as a string. -/
def encrypt (data : Option PyVal) : Option PyStr :=
  match data with
  | none => none
  | some v => some (fernetEncrypt (pyStr v))

/-- `AESCipher.decrypt`: `None → None`; otherwise `str()` the input and
attempt Fernet decryption; on any failure return the string form of the
input verbatim. -/
def decrypt (encrypted_data : Option PyVal) : Option PyStr :=
  match encrypted_data with
  | none => none
  | some v =>
    match fernetDecrypt (pyStr v) with
    | some plain => some plain
    | none => some (pyStr v)

end AESCipher

/-- `decrypt(encrypt(v))` for a present scalar `v`, as a Python value
(the decrypted result is a Python string). -/
def roundtrip (v : PyVal) : Option PyVal :=
  match AESCipher.encrypt (some v) with
  | none => none
  | some c => (AESCipher.decrypt (some (.str c))).map .str

/-! ### Typed encrypted fields (`app/models/patient.py`)

`EncryptedIntField` / `EncryptedFloatField` store `encrypt(str(value))`
and on read coerce the decrypted string back to the numeric type,
defaulting to 0 / 0.0 on coercion failure. Python's `int()` accepts an
optional sign and digits; `float()` additionally accepts a decimal
point (the exponent forms never arise from the repository's stored
reprs and are not modelled). -/

/-- Digit string to number, `int("05") = 5`. -/
def parseNatChars (l : PyStr) : Nat :=
  l.foldl (fun a c => a * 10 + (c.toNat - 48)) 0

/-- Python `int(s)`: optional sign, then at least one digit. -/
def pyParseInt (s : PyStr) : Option Int :=
  match s with
  | '-' :: rest =>
    if rest ≠ [] && rest.all Char.isDigit then some (-(parseNatChars rest : Int)) else none
  | '+' :: rest =>
    if rest ≠ [] && rest.all Char.isDigit then some (parseNatChars rest : Int) else none
  | _ =>
    if s ≠ [] && s.all Char.isDigit then some (parseNatChars s : Int) else none

/-- Unsigned part of Python `float(s)`: digits with an optional decimal
point, at least one digit overall. -/
def pyParseFloatUnsigned (s : PyStr) : Option Rat :=
  let ip := s.takeWhile Char.isDigit
  match s.dropWhile Char.isDigit with
  | [] => if ip ≠ [] then some (parseNatChars ip : Rat) else none
  | '.' :: fp =>
    if fp.all Char.isDigit && (ip ≠ [] || fp ≠ []) then
      some ((parseNatChars ip : Rat) + (parseNatChars fp : Rat) / (10 : Rat) ^ fp.length)
    else none
  | _ => none

/-- Python `float(s)` on the decimal forms that occur here. -/
def pyParseFloat (s : PyStr) : Option Rat :=
  match s with
  | '-' :: rest => (pyParseFloatUnsigned rest).map Neg.neg
  | '+' :: rest => pyParseFloatUnsigned rest
  | _ => pyParseFloatUnsigned s

/-- Python `int(x)` on a float value: truncation toward zero. -/
def ratTrunc (q : Rat) : Int := q.num.tdiv (q.den : Int)

namespace EncryptedFloatField

/-- `to_mongo`: `None → None`, else `encrypt(str(value))`. -/
def to_mongo (value : Option PyVal) : Option PyVal :=
  match value with
  | none => none
  | some v => (AESCipher.encrypt (some v)).map .str

/-- `to_python`: `None → None`; a raw legacy number becomes
`float(value)`; a string is decrypted and coerced with `float`,
defaulting to `0.0` when coercion fails. -/
def to_python (value : Option PyVal) : Option PyVal :=
  match value with
  | none => none
  | some (.int n) => some (.float (n : Rat))
  | some (.float q) => some (.float q)
  | some (.str s) =>
    let decrypted := (AESCipher.decrypt (some (.str s))).getD []
    match pyParseFloat decrypted with
    | some q => some (.float q)
    | none => some (.float 0)

end EncryptedFloatField

namespace EncryptedIntField

/-- `to_mongo`: `None → None`, else `encrypt(str(value))`. -/
def to_mongo (value : Option PyVal) : Option PyVal :=
  match value with
  | none => none
  | some v => (AESCipher.encrypt (some v)).map .str

/-- `to_python`: `None → None`; a raw legacy number becomes
`int(value)`; a string is decrypted and coerced with `int`, then with
`int(float(...))` (handling `"55.0"`), defaulting to `0`. -/
def to_python (value : Option PyVal) : Option PyVal :=
  match value with
  | none => none
  | some (.int n) => some (.int n)
  | some (.float q) => some (.int (ratTrunc q))
  | some (.str s) =>
    let decrypted := (AESCipher.decrypt (some (.str s))).getD []
    match pyParseInt decrypted with
    | some n => some (.int n)
    | none =>
      match pyParseFloat decrypted with
      | some q => some (.int (ratTrunc q))
      | none => some (.int 0)

end EncryptedIntField

/-! ## Identifier Generator (`app/utils/id_generator.py`)

`datetime.now()` per attempt is modelled by an oracle `att` giving each
attempt's `(year, month, day)` and the `random.randint(0, 9999)` draw;
the `Patient.objects(patient_id=...)` existence lookup is a predicate
`existsInDB` on identifiers. -/

/-- `str(now.year)[-1]`: the last character of the year's decimal form,
as a 1-character string. -/
def yearDigitStr (year : Nat) : PyStr :=
  match (natStr year).getLast? with
  | some c => [c]
  | none => []

/-- The date portion `f"{year_digit}{month_digits}{day_digits}"` with
`str(month).zfill(2)` and `str(day).zfill(2)`. -/
def date_portion (year month day : Nat) : PyStr :=
  yearDigitStr year ++ zfill 2 (natStr month) ++ zfill 2 (natStr day)

/-- One loop iteration's candidate
`f"{date_portion}{str(rand).zfill(4)}"`. -/
def patientIdCandidate (year month day rand : Nat) : PyStr :=
  date_portion year month day ++ zfill 4 (natStr rand)

/-- `IDGenerator.check_patient_id`: `True` when the id is NOT present in
the database (available), `False` on collision. -/
def check_patient_id (existsInDB : PyStr → Bool) (patient_id : PyStr) : Bool :=
  !existsInDB patient_id

/-- `IDGenerator.validate_patient_id`: reject empty input, wrong
length/non-digits, month outside 1–12, day outside 1–31; otherwise valid
exactly when the id is absent from storage. -/
def validate_patient_id (existsInDB : PyStr → Bool) (patient_id : PyStr) : Bool :=
  if patient_id = [] then false
  else if ¬(patient_id.length = 9 ∧ patient_id.all Char.isDigit) then false
  else
    if parseNatChars ((patient_id.drop 1).take 2) < 1 ∨
        12 < parseNatChars ((patient_id.drop 1).take 2) then false
    else if parseNatChars ((patient_id.drop 3).take 2) < 1 ∨
        31 < parseNatChars ((patient_id.drop 3).take 2) then false
    else check_patient_id existsInDB patient_id

inductive GenError where
  /-- `ValueError("Failed to generate a valid patient ID after maximum attempts.")` -/
  | exhausted
  deriving DecidableEq, Repr

/-- One loop iteration's inputs: the components of `datetime.now()` read in
that iteration and the `random.randint(0, 9999)` draw. -/
structure GenAttempt where
  year : Nat
  month : Nat
  day : Nat
  rand : Nat
  deriving DecidableEq, Repr

/-- The identifier an attempt's inputs produce. -/
def attemptCandidate (a : GenAttempt) : PyStr :=
  patientIdCandidate a.year a.month a.day a.rand

/-- The `for attempt in range(max_attempts)` loop: `i` is the current
attempt index, the final argument the remaining iterations. -/
def genLoop (existsInDB : PyStr → Bool) (att : Nat → GenAttempt)
    (i : Nat) : Nat → Except GenError PyStr
  | 0 => .error .exhausted
  | remaining + 1 =>
    if validate_patient_id existsInDB (attemptCandidate (att i)) then
      .ok (attemptCandidate (att i))
    else genLoop existsInDB att (i + 1) remaining

/-- `IDGenerator.generate_patient_id` with `max_attempts = 5`. -/
def generate_patient_id (existsInDB : PyStr → Bool)
    (att : Nat → GenAttempt) : Except GenError PyStr :=
  genLoop existsInDB att 0 5

/-! ## Lemmas about the decimal-string helpers -/

theorem natStrAux_congr : ∀ f g n, n < f → n < g → natStrAux f n = natStrAux g n := by
  intro f
  induction f with
  | zero => intro g n h _; omega
  | succ f ih =>
    intro g n hf hg
    match g with
    | 0 => omega
    | g + 1 =>
      simp only [natStrAux]
      by_cases h10 : n < 10
      · simp [h10]
      · simp only [if_neg h10]
        rw [ih g (n / 10) (by omega) (by omega)]

theorem natStr_lt10 {n : Nat} (h : n < 10) : natStr n = [Nat.digitChar n] := by
  simp [natStr, natStrAux, h]

theorem natStr_ge10 {n : Nat} (h : 10 ≤ n) :
    natStr n = natStr (n / 10) ++ [Nat.digitChar (n % 10)] := by
  show natStrAux (n + 1) n = _
  rw [natStrAux]
  rw [if_neg (by omega)]
  rw [natStrAux_congr n (n / 10 + 1) (n / 10) (by omega) (by omega)]
  rfl

theorem digitChar_isDigit : ∀ d, d < 10 → (Nat.digitChar d).isDigit = true := by decide

theorem digitChar_toNat : ∀ d, d < 10 → (Nat.digitChar d).toNat - 48 = d := by decide

theorem natStr_all_digit (n : Nat) : (natStr n).all Char.isDigit = true := by
  induction n using Nat.strong_induction_on with
  | _ n ih =>
    by_cases h10 : n < 10
    · rw [natStr_lt10 h10]
      simp [digitChar_isDigit n h10]
    · rw [natStr_ge10 (by omega)]
      rw [List.all_append]
      rw [ih (n / 10) (by omega)]
      simp [digitChar_isDigit (n % 10) (by omega)]

theorem natStr_getLast (n : Nat) :
    (natStr n).getLast? = some (Nat.digitChar (n % 10)) := by
  by_cases h10 : n < 10
  · rw [natStr_lt10 h10, Nat.mod_eq_of_lt h10]
    rfl
  · rw [natStr_ge10 (by omega)]
    exact List.getLast?_concat _

theorem yearDigitStr_eq (y : Nat) :
    yearDigitStr y = [Nat.digitChar (y % 10)] := by
  rw [yearDigitStr, natStr_getLast]

theorem natStr_two {n : Nat} (h1 : 10 ≤ n) (h2 : n ≤ 99) :
    natStr n = [Nat.digitChar (n / 10), Nat.digitChar (n % 10)] := by
  rw [natStr_ge10 h1, natStr_lt10 (by omega)]
  rfl

theorem natStr_three {n : Nat} (h1 : 100 ≤ n) (h2 : n ≤ 999) :
    natStr n = [Nat.digitChar (n / 100), Nat.digitChar (n / 10 % 10),
      Nat.digitChar (n % 10)] := by
  rw [natStr_ge10 (by omega), natStr_two (by omega) (by omega)]
  rw [Nat.div_div_eq_div_mul]
  rfl

theorem natStr_four {n : Nat} (h1 : 1000 ≤ n) (h2 : n ≤ 9999) :
    natStr n = [Nat.digitChar (n / 1000), Nat.digitChar (n / 100 % 10),
      Nat.digitChar (n / 10 % 10), Nat.digitChar (n % 10)] := by
  rw [natStr_ge10 (by omega), natStr_three (by omega) (by omega)]
  rw [Nat.div_div_eq_div_mul, Nat.div_div_eq_div_mul]
  rfl

theorem zfill2_natStr {n : Nat} (h : n ≤ 99) :
    zfill 2 (natStr n) = [Nat.digitChar (n / 10), Nat.digitChar (n % 10)] := by
  by_cases h10 : n < 10
  · rw [natStr_lt10 h10]
    have hd : n / 10 = 0 := by omega
    have hm : n % 10 = n := by omega
    rw [hd, hm]
    rfl
  · rw [natStr_two (by omega) h]
    rfl

theorem zfill4_natStr {n : Nat} (h : n ≤ 9999) :
    zfill 4 (natStr n) = [Nat.digitChar (n / 1000), Nat.digitChar (n / 100 % 10),
      Nat.digitChar (n / 10 % 10), Nat.digitChar (n % 10)] := by
  by_cases h10 : n < 10
  · rw [natStr_lt10 h10]
    have e1 : n / 1000 = 0 := by omega
    have e2 : n / 100 % 10 = 0 := by omega
    have e3 : n / 10 % 10 = 0 := by omega
    have e4 : n % 10 = n := by omega
    rw [e1, e2, e3, e4]
    rfl
  · by_cases h100 : n < 100
    · rw [natStr_two (by omega) (by omega)]
      have e1 : n / 1000 = 0 := by omega
      have e2 : n / 100 % 10 = 0 := by omega
      have e3 : n / 10 % 10 = n / 10 := by omega
      rw [e1, e2, e3]
      rfl
    · by_cases h1000 : n < 1000
      · rw [natStr_three (by omega) (by omega)]
        have e1 : n / 1000 = 0 := by omega
        have e2 : n / 100 % 10 = n / 100 := by omega
        rw [e1, e2]
        rfl
      · rw [natStr_four (by omega) h]
        rfl

theorem patientIdCandidate_explicit {y m d r : Nat}
    (hm : m ≤ 99) (hd : d ≤ 99) (hr : r ≤ 9999) :
    patientIdCandidate y m d r =
      [Nat.digitChar (y % 10), Nat.digitChar (m / 10), Nat.digitChar (m % 10),
       Nat.digitChar (d / 10), Nat.digitChar (d % 10),
       Nat.digitChar (r / 1000), Nat.digitChar (r / 100 % 10),
       Nat.digitChar (r / 10 % 10), Nat.digitChar (r % 10)] := by
  rw [patientIdCandidate, date_portion, yearDigitStr_eq,
    zfill2_natStr hm, zfill2_natStr hd, zfill4_natStr hr]
  rfl

theorem parse2_digitChar {a b : Nat} (ha : a < 10) (hb : b < 10) :
    parseNatChars [Nat.digitChar a, Nat.digitChar b] = a * 10 + b := by
  simp only [parseNatChars, List.foldl]
  rw [digitChar_toNat a ha, digitChar_toNat b hb]
  ring

/-- Any identifier built inside the generation loop from an in-range date
and random draw passes every structural check, so validation reduces to
the storage-collision check alone. -/
theorem validate_candidate_eq_check (ex : PyStr → Bool) (y m d r : Nat)
    (hm1 : 1 ≤ m) (hm2 : m ≤ 12) (hd1 : 1 ≤ d) (hd2 : d ≤ 31) (hr : r ≤ 9999) :
    validate_patient_id ex (patientIdCandidate y m d r) =
      check_patient_id ex (patientIdCandidate y m d r) := by
  have hexp := patientIdCandidate_explicit (y := y) (m := m) (d := d) (r := r)
    (by omega) (by omega) hr
  rw [validate_patient_id, hexp]
  have hstruct : (([Nat.digitChar (y % 10), Nat.digitChar (m / 10), Nat.digitChar (m % 10),
      Nat.digitChar (d / 10), Nat.digitChar (d % 10),
      Nat.digitChar (r / 1000), Nat.digitChar (r / 100 % 10),
      Nat.digitChar (r / 10 % 10), Nat.digitChar (r % 10)] : PyStr).length = 9 ∧
      ([Nat.digitChar (y % 10), Nat.digitChar (m / 10), Nat.digitChar (m % 10),
      Nat.digitChar (d / 10), Nat.digitChar (d % 10),
      Nat.digitChar (r / 1000), Nat.digitChar (r / 100 % 10),
      Nat.digitChar (r / 10 % 10), Nat.digitChar (r % 10)] : PyStr).all Char.isDigit) := by
    constructor
    · rfl
    · simp only [List.all_cons, List.all_nil, Bool.and_true]
      rw [digitChar_isDigit _ (by omega), digitChar_isDigit _ (by omega),
        digitChar_isDigit _ (by omega), digitChar_isDigit _ (by omega),
        digitChar_isDigit _ (by omega), digitChar_isDigit _ (by omega),
        digitChar_isDigit _ (by omega), digitChar_isDigit _ (by omega),
        digitChar_isDigit _ (by omega)]
      rfl
  have hmonth : parseNatChars ((([Nat.digitChar (y % 10), Nat.digitChar (m / 10),
      Nat.digitChar (m % 10), Nat.digitChar (d / 10), Nat.digitChar (d % 10),
      Nat.digitChar (r / 1000), Nat.digitChar (r / 100 % 10),
      Nat.digitChar (r / 10 % 10), Nat.digitChar (r % 10)] : PyStr).drop 1).take 2) = m := by
    show parseNatChars [Nat.digitChar (m / 10), Nat.digitChar (m % 10)] = m
    rw [parse2_digitChar (by omega) (by omega)]
    omega
  have hday : parseNatChars ((([Nat.digitChar (y % 10), Nat.digitChar (m / 10),
      Nat.digitChar (m % 10), Nat.digitChar (d / 10), Nat.digitChar (d % 10),
      Nat.digitChar (r / 1000), Nat.digitChar (r / 100 % 10),
      Nat.digitChar (r / 10 % 10), Nat.digitChar (r % 10)] : PyStr).drop 3).take 2) = d := by
    show parseNatChars [Nat.digitChar (d / 10), Nat.digitChar (d % 10)] = d
    rw [parse2_digitChar (by omega) (by omega)]
    omega
  rw [if_neg (by simp), if_neg (not_not_intro hstruct), hmonth, hday,
    if_neg (by omega), if_neg (by omega)]

theorem validate_true_elim {ex : PyStr → Bool} {pid : PyStr}
    (h : validate_patient_id ex pid = true) :
    pid.length = 9 ∧ pid.all Char.isDigit = true ∧
    1 ≤ parseNatChars ((pid.drop 1).take 2) ∧
    parseNatChars ((pid.drop 1).take 2) ≤ 12 ∧
    1 ≤ parseNatChars ((pid.drop 3).take 2) ∧
    parseNatChars ((pid.drop 3).take 2) ≤ 31 ∧
    ex pid = false := by
  rw [validate_patient_id] at h
  split_ifs at h with h1 h2 h3 h4
  push_neg at h2
  refine ⟨h2.1, h2.2, by omega, by omega, by omega, by omega, ?_⟩
  simpa [check_patient_id] using h

theorem genLoop_ok {ex : PyStr → Bool} {att : Nat → GenAttempt} :
    ∀ rem i pid, genLoop ex att i rem = .ok pid →
      validate_patient_id ex pid = true := by
  intro rem
  induction rem with
  | zero => intro i pid h; exact absurd h (by simp [genLoop])
  | succ rem ih =>
    intro i pid h
    rw [genLoop] at h
    by_cases hv : validate_patient_id ex (attemptCandidate (att i)) = true
    · rw [if_pos hv] at h
      cases h
      exact hv
    · rw [if_neg hv] at h
      exact ih (i + 1) pid h

theorem genLoop_congr {ex : PyStr → Bool} {att att' : Nat → GenAttempt} :
    ∀ rem i, (∀ j, i ≤ j → j < i + rem → att j = att' j) →
      genLoop ex att i rem = genLoop ex att' i rem := by
  intro rem
  induction rem with
  | zero => intro i _; rfl
  | succ rem ih =>
    intro i h
    rw [genLoop, genLoop, h i (Nat.le_refl i) (by omega)]
    by_cases hv : validate_patient_id ex (attemptCandidate (att' i)) = true
    · rw [if_pos hv, if_pos hv]
    · rw [if_neg hv, if_neg hv]
      exact ih (i + 1) (fun j h1 h2 => h j (by omega) (by omega))

theorem genLoop_allFail {ex : PyStr → Bool} {att : Nat → GenAttempt} :
    ∀ rem i, (∀ j, i ≤ j → j < i + rem →
        validate_patient_id ex (attemptCandidate (att j)) = false) →
      genLoop ex att i rem = .error .exhausted := by
  intro rem
  induction rem with
  | zero => intro i _; rfl
  | succ rem ih =>
    intro i h
    rw [genLoop, if_neg (by rw [h i (Nat.le_refl i) (by omega)]; simp)]
    exact ih (i + 1) (fun j h1 h2 => h j (by omega) (by omega))

/-! ## Lemmas about the login flow -/

theorem iterFail_succ_last (T P now : Nat) :
    ∀ n (u : UserState), iterFail T P now (n + 1) u =
      (login T P now false (iterFail T P now n u)).user := by
  intro n
  induction n with
  | zero => intro u; rfl
  | succ n ih =>
    intro u
    rw [iterFail, ih]
    rfl

theorem iterFail_below (T P now : Nat) :
    ∀ k, k < T → iterFail T P now k defaultUserState =
      { failed_login_attempts := k,
        last_failed_login := if k = 0 then none else some now,
        is_locked := false, locked_at := none } := by
  intro k
  induction k with
  | zero => intro _; rfl
  | succ k ih =>
    intro hk
    rw [iterFail_succ_last, ih (by omega)]
    have h1 : ¬(k + 1 ≥ T) := by omega
    simp [login, evalCredentials, UserState.increment_failed_attempts, h1]

theorem evalCredentials_success {T now : Nat} {pw : Bool} {u : UserState}
    (h : (evalCredentials T now pw u).outcome = .success) :
    (evalCredentials T now pw u).user.failed_login_attempts = 0 := by
  rw [evalCredentials] at h ⊢
  by_cases hpw : pw
  · simp [hpw, UserState.reset_failed_attempts]
  · exfalso
    by_cases hth : (u.increment_failed_attempts now).failed_login_attempts ≥ T <;>
      simp [hpw, hth] at h

theorem login_success_resets {T P now : Nat} {pw : Bool} {u : UserState}
    (h : (login T P now pw u).outcome = .success) :
    (login T P now pw u).user.failed_login_attempts = 0 := by
  rw [login] at h ⊢
  by_cases hl : u.is_locked
  · by_cases he : u.locked_for_seconds now ≥ (P : Int)
    · rw [if_pos hl, if_pos he] at h ⊢
      exact evalCredentials_success h
    · rw [if_pos hl, if_neg he] at h
      exact absurd h (by simp)
  · rw [if_neg hl] at h ⊢
    exact evalCredentials_success h

/-! ## Lemmas about the codec -/

theorem fernetDecrypt_encrypt (s : PyStr) : fernetDecrypt (fernetEncrypt s) = some s := by
  rw [fernetDecrypt, fernetEncrypt]
  have h6 : (6 : Nat) = fernetTag.length := rfl
  rw [if_pos (by rw [h6, List.take_left]), h6, List.drop_left]

theorem roundtrip_eq_str (v : PyVal) : roundtrip v = some (.str (pyStr v)) := by
  simp [roundtrip, AESCipher.encrypt, AESCipher.decrypt, pyStr, fernetDecrypt_encrypt]

/-! # Claims -/

/-- C1: For every account starting with a failed-attempt counter of 0, after
exactly T consecutive failed login attempts (T = `ACCOUNT_LOCKOUT_ATTEMPTS`,
default 5) the account's lock flag is true, and after only T−1 consecutive
failed attempts it is false. -/
theorem C1_lockout_threshold (T P now : Nat) (hT : 0 < T) :
    (iterFail T P now (T - 1) defaultUserState).is_locked = false ∧
    (iterFail T P now T defaultUserState).is_locked = true := by
  constructor
  · rw [iterFail_below T P now (T - 1) (by omega)]
  · have e : T - 1 + 1 = T := by omega
    have h := iterFail_succ_last T P now (T - 1) defaultUserState
    rw [e] at h
    rw [h, iterFail_below T P now (T - 1) (by omega)]
    have h1 : T - 1 + 1 ≥ T := by omega
    simp [login, evalCredentials, UserState.increment_failed_attempts,
      UserState.lock, h1]

theorem C1_witness :
    0 < 5 ∧
    ((iterFail 5 900 0 4 defaultUserState).is_locked = false ∧
     (iterFail 5 900 0 5 defaultUserState).is_locked = true) :=
  ⟨by decide, C1_lockout_threshold 5 900 0 (by decide)⟩

/-- C2: A role-protected operation with required role set `roles` is allowed
iff the principal is authenticated, its role is in `roles`, and its account
is not locked; otherwise the request is denied and the view body's result
never appears. -/
theorem C2_access_guard {α : Type} (roles : List String) (p : Principal)
    (f : Unit → α) :
    ((∃ a, guardedRequest roles p f = .ok a) ↔
      (p.authenticated = true ∧ p.role ∈ roles ∧ p.is_locked = false)) ∧
    (∀ a, guardedRequest roles p f = .ok a → a = f ()) := by
  unfold guardedRequest validate_session require_role
  by_cases h1 : p.authenticated <;> by_cases h2 : p.is_locked <;>
    by_cases h3 : p.role ∈ roles <;> simp [h1, h2, h3]

theorem C2_witness :
    guardedRequest ["Admin"] ⟨true, "Admin", false⟩ (fun _ => (42 : Nat)) =
      .ok 42 := by
  obtain ⟨a, ha⟩ :=
    (C2_access_guard ["Admin"] ⟨true, "Admin", false⟩ (fun _ => (42 : Nat))).1.mpr
      ⟨rfl, by simp, rfl⟩
  have hb :=
    (C2_access_guard ["Admin"] ⟨true, "Admin", false⟩ (fun _ => (42 : Nat))).2 a ha
  rw [ha, hb]

/-- C3 counterexample: at the integer scalar 0, `encrypt` first converts to
the string "0", so `decrypt(encrypt(0))` returns the *string* "0", and in
Python `"0" == 0` is `False`: the round-trip law fails for non-string
scalars at the cipher level. -/
theorem C3_counterexample :
    roundtrip (.int 0) = some (.str ['0']) ∧
    pyEq (.str ['0']) (.int 0) = false :=
  ⟨rfl, rfl⟩

/-- C3 amended: `decrypt(encrypt(v))` returns `str(v)` — equal to `v`
exactly when `v` is a string — and the typed field codecs restore numeric
values: a legacy plain numeric stored without encryption decodes to the
same numeric value through `EncryptedFloatField.to_python` /
`EncryptedIntField.to_python`. -/
theorem C3_roundtrip_amended :
    (∀ s : PyStr, roundtrip (.str s) = some (.str s)) ∧
    (∀ v : PyVal, roundtrip v = some (.str (pyStr v))) ∧
    (∀ q : Rat, EncryptedFloatField.to_python (some (.float q)) =
      some (.float q)) ∧
    (∀ n : Int, EncryptedFloatField.to_python (some (.int n)) =
      some (.float (n : Rat))) ∧
    (∀ n : Int, EncryptedIntField.to_python (some (.int n)) =
      some (.int n)) :=
  ⟨fun s => roundtrip_eq_str (.str s), fun v => roundtrip_eq_str v,
    fun _ => rfl, fun _ => rfl, fun _ => rfl⟩

/-- C4: A login attempt against a locked account whose elapsed time since
locking is below the lockout period is rejected with the generic "locked"
outcome, the account state is unchanged, and the password comparison is
never reached — for correct and incorrect credentials alike. -/
theorem C4_locked_reject (T P now t : Nat) (pw : Bool) (u : UserState)
    (h1 : u.is_locked = true) (h2 : u.locked_at = some t)
    (h3 : (now : Int) - t < (P : Int)) :
    login T P now pw u =
      { user := u, outcome := .lockedReject, passwordChecked := false } := by
  have hl : u.locked_for_seconds now = (now : Int) - t := by
    simp [UserState.locked_for_seconds, h1, h2]
  rw [login, if_pos h1, hl, if_neg (by omega)]

theorem C4_witness :
    (⟨3, some 0, true, some 0⟩ : UserState).is_locked = true ∧
    (⟨3, some 0, true, some 0⟩ : UserState).locked_at = some 0 ∧
    ((10 : Nat) : Int) - (0 : Nat) < ((900 : Nat) : Int) ∧
    login 5 900 10 true ⟨3, some 0, true, some 0⟩ =
      { user := ⟨3, some 0, true, some 0⟩, outcome := .lockedReject,
        passwordChecked := false } :=
  ⟨rfl, rfl, by decide,
    C4_locked_reject 5 900 10 0 true ⟨3, some 0, true, some 0⟩ rfl rfl (by decide)⟩

/-- C5: A login attempt against a locked account whose elapsed time since
locking is at least the lockout period first clears the lock flag and lock
timestamp and resets the counter to 0, and then evaluates the submitted
credentials normally — for correct and incorrect credentials alike. -/
theorem C5_auto_unlock (T P now t : Nat) (pw : Bool) (u : UserState)
    (h1 : u.is_locked = true) (h2 : u.locked_at = some t)
    (h3 : (P : Int) ≤ (now : Int) - t) :
    login T P now pw u = evalCredentials T now pw u.unlock ∧
    u.unlock.is_locked = false ∧ u.unlock.locked_at = none ∧
    u.unlock.failed_login_attempts = 0 ∧ u.unlock.last_failed_login = none := by
  have hl : u.locked_for_seconds now = (now : Int) - t := by
    simp [UserState.locked_for_seconds, h1, h2]
  refine ⟨?_, rfl, rfl, rfl, rfl⟩
  rw [login, if_pos h1, hl, if_pos h3]

theorem C5_witness :
    (⟨3, some 0, true, some 0⟩ : UserState).is_locked = true ∧
    (⟨3, some 0, true, some 0⟩ : UserState).locked_at = some 0 ∧
    (((900 : Nat) : Int) ≤ ((1000 : Nat) : Int) - (0 : Nat)) ∧
    (login 5 900 1000 false ⟨3, some 0, true, some 0⟩ =
      evalCredentials 5 1000 false (⟨3, some 0, true, some 0⟩ : UserState).unlock ∧
    (⟨3, some 0, true, some 0⟩ : UserState).unlock.is_locked = false ∧
    (⟨3, some 0, true, some 0⟩ : UserState).unlock.locked_at = none ∧
    (⟨3, some 0, true, some 0⟩ : UserState).unlock.failed_login_attempts = 0 ∧
    (⟨3, some 0, true, some 0⟩ : UserState).unlock.last_failed_login = none) :=
  ⟨rfl, rfl, by decide,
    C5_auto_unlock 5 900 1000 0 false ⟨3, some 0, true, some 0⟩ rfl rfl (by decide)⟩

/-- C6: The codec is total: `encrypt(None)` and `decrypt(None)` are `None`;
any present input whose authenticated decryption fails is returned verbatim
as its string form; decryption always produces a value, never an
exception. -/
theorem C6_decrypt_total :
    AESCipher.decrypt none = none ∧ AESCipher.encrypt none = none ∧
    (∀ v : PyVal, fernetDecrypt (pyStr v) = none →
      AESCipher.decrypt (some v) = some (pyStr v)) ∧
    (∀ v : PyVal, ∃ s : PyStr, AESCipher.decrypt (some v) = some s) := by
  refine ⟨rfl, rfl, ?_, ?_⟩
  · intro v h
    simp [AESCipher.decrypt, h]
  · intro v
    cases hf : fernetDecrypt (pyStr v) with
    | none => exact ⟨pyStr v, by simp [AESCipher.decrypt, hf]⟩
    | some s => exact ⟨s, by simp [AESCipher.decrypt, hf]⟩

theorem C6_witness :
    fernetDecrypt (pyStr (.str ['3', '8', '.', '5'])) = none ∧
    AESCipher.decrypt (some (.str ['3', '8', '.', '5'])) =
      some ['3', '8', '.', '5'] :=
  ⟨by decide, C6_decrypt_total.2.2.1 (.str ['3', '8', '.', '5']) (by decide)⟩

/-- C7: `generate_patient_id` examines at most 5 attempts; it either
returns an identifier that passed every structural check (length 9, all
digits, month 1–12, day 1–31) and is absent from storage, or fails with
the generation-failure error after the 5 attempts — never a fabricated
identifier. -/
theorem C7_generate_bounded (ex : PyStr → Bool) (att : Nat → GenAttempt) :
    ((∃ pid, generate_patient_id ex att = .ok pid ∧
        pid.length = 9 ∧ pid.all Char.isDigit = true ∧
        1 ≤ parseNatChars ((pid.drop 1).take 2) ∧
        parseNatChars ((pid.drop 1).take 2) ≤ 12 ∧
        1 ≤ parseNatChars ((pid.drop 3).take 2) ∧
        parseNatChars ((pid.drop 3).take 2) ≤ 31 ∧
        ex pid = false) ∨
      generate_patient_id ex att = .error .exhausted) ∧
    (∀ att' : Nat → GenAttempt, (∀ i, i < 5 → att i = att' i) →
      generate_patient_id ex att = generate_patient_id ex att') := by
  constructor
  · cases hgen : generate_patient_id ex att with
    | ok pid =>
      exact .inl ⟨pid, rfl, validate_true_elim (genLoop_ok 5 0 pid hgen)⟩
    | error e =>
      cases e
      exact .inr rfl
  · intro att' h
    exact genLoop_congr 5 0 (fun j _ h2 => h j (by omega))

theorem C7_witness :
    generate_patient_id (fun _ => false) (fun _ => ⟨2025, 10, 12, 345⟩) =
      generate_patient_id (fun _ => false)
        (fun i => if i < 5 then ⟨2025, 10, 12, 345⟩ else ⟨0, 0, 0, 0⟩) :=
  (C7_generate_bounded (fun _ => false) (fun _ => ⟨2025, 10, 12, 345⟩)).2
    (fun i => if i < 5 then ⟨2025, 10, 12, 345⟩ else ⟨0, 0, 0, 0⟩)
    (fun i hi => by simp [hi])

/-- C8 counterexample: `User.reset_failed_attempts` has no exception
handler and no retry; when the commit fails, the login success path
surfaces the persistence error instead of proceeding. -/
theorem C8_counterexample :
    loginSuccessPath false defaultUserState = .error .commitFailed :=
  rfl

/-- C8 amended: on successful authentication the counter reset performs a
single persistence write with no retry; if the write succeeds the login
proceeds with the counter reset, and if it fails the persistence error
propagates to the login flow (the response does not proceed). -/
theorem C8_no_retry_propagates :
    (∀ u : UserState, loginSuccessPath true u =
      .ok { user := u.reset_failed_attempts, outcome := .success,
            passwordChecked := true }) ∧
    (∀ u : UserState, loginSuccessPath false u = .error .commitFailed) :=
  ⟨fun _ => rfl, fun _ => rfl⟩

/-- C9: Every Account operation preserves the invariant lock flag ⇔ lock
timestamp non-null; an operation that turns the lock flag from true to
false leaves the failed-attempt counter at 0; and a successful
authentication leaves the counter at 0. -/
theorem C9_lock_invariant (op : AccountOp) (u : UserState) (h : lockInv u) :
    lockInv (op.apply u) ∧
    (u.is_locked = true → (op.apply u).is_locked = false →
      (op.apply u).failed_login_attempts = 0) ∧
    (∀ T P now : Nat, ∀ pw : Bool, ∀ v : UserState,
      (login T P now pw v).outcome = .success →
      (login T P now pw v).user.failed_login_attempts = 0) := by
  refine ⟨?_, ?_, fun T P now pw v hv => login_success_resets hv⟩
  · cases op with
    | create => simp [AccountOp.apply, lockInv, defaultUserState]
    | lockOp now => simp [AccountOp.apply, lockInv, UserState.lock]
    | unlockOp =>
      simp [AccountOp.apply, lockInv, UserState.unlock,
        UserState.reset_failed_attempts]
    | incrementOp now =>
      simpa [AccountOp.apply, lockInv, UserState.increment_failed_attempts] using h
    | resetOp =>
      simpa [AccountOp.apply, lockInv, UserState.reset_failed_attempts] using h
  · cases op with
    | create => intro _ _; rfl
    | lockOp now =>
      intro _ hc
      exact absurd hc (by simp [AccountOp.apply, UserState.lock])
    | unlockOp => intro _ _; rfl
    | incrementOp now =>
      intro h1 hc
      exact absurd hc
        (by simp [AccountOp.apply, UserState.increment_failed_attempts, h1])
    | resetOp =>
      intro h1 hc
      exact absurd hc
        (by simp [AccountOp.apply, UserState.reset_failed_attempts, h1])

theorem C9_witness :
    lockInv defaultUserState ∧ lockInv (AccountOp.apply .unlockOp defaultUserState) :=
  ⟨by decide, (C9_lock_invariant .unlockOp defaultUserState (by decide)).1⟩

/-- C10: Every identifier built inside the generation loop from an in-range
date (month 1–12, day 1–31, any year) and a `randint(0, 9999)` draw is
structurally valid by construction, so validation reduces to the storage
lookup: a retry can only be caused by a collision. -/
theorem C10_candidate_structural (ex : PyStr → Bool) (a : GenAttempt)
    (hm1 : 1 ≤ a.month) (hm2 : a.month ≤ 12)
    (hd1 : 1 ≤ a.day) (hd2 : a.day ≤ 31) (hr : a.rand ≤ 9999) :
    validate_patient_id ex (attemptCandidate a) = !ex (attemptCandidate a) :=
  validate_candidate_eq_check ex a.year a.month a.day a.rand hm1 hm2 hd1 hd2 hr

theorem C10_witness :
    (1 ≤ 10 ∧ 10 ≤ 12 ∧ 1 ≤ 12 ∧ 12 ≤ 31 ∧ 345 ≤ 9999) ∧
    validate_patient_id (fun _ => false)
        (attemptCandidate ⟨2025, 10, 12, 345⟩) =
      !(fun _ : PyStr => false) (attemptCandidate ⟨2025, 10, 12, 345⟩) :=
  ⟨by decide,
    C10_candidate_structural (fun _ => false) ⟨2025, 10, 12, 345⟩
      (by decide) (by decide) (by decide) (by decide) (by decide)⟩

end StrokeVision
